import Mathlib

/-!
# Verification of the checkout API client core

A shallow embedding, in Lean 4, of the logic-bearing core of the `checkout`
Rust crate (an API client binding for a payment-processing service):

* the currency-aware amount codec (`src/types/currency.rs`),
* environment parsing and URL selection (`src/lib.rs`),
* the OAuth authorization step and the shared send/classify request
  pipeline (`src/lib.rs`),
* the `create_payment` status dispatcher (`src/lib.rs`).

Modelling conventions:

* `BigDecimal` values are modelled as `ℚ`.  Every `BigDecimal` operation
  performed by the source (`from`, `*`, `/` by 100 or 1000) is exact, so the
  rational model is faithful.
* `u64` is modelled as `ℕ` together with explicit `< 2 ^ 64` bounds where the
  width matters.
* A Rust panic (`Option::unwrap` / `Result::unwrap` on a `None`/`Err`) is
  modelled by `Option.none` in the result type of the embedded function.
* HTTP exchanges are modelled by value: a response is a record carrying the
  status code together with the outcome of deserializing its body at each
  type the code may request (`none` models a body that fails to
  deserialize).  The requests a call attempts are returned as an explicit
  event trace.
-/

namespace Checkout

/-- The supported currency codes, from `src/types/currency.rs`. -/
inductive Currency where
  | AED | AFN | ALL | AMD | ANG | AOA | ARS | AUD | AWG | AZN
  | BAM | BBD | BDT | BGN | BHD | BIF | BMD | BND | BOB | BRL
  | BSD | BTN | BWP | BYN | BZD | CAD | CDF | CHF | CLF | CLP
  | CNY | COP | CRC | CVE | CZK | DJF | DKK | DOP | DZD | EEK
  | EGP | ERN | ETB | EUR | FJD | FKP | GBP | GEL | GHS | GIP
  | GMD | GNF | GTQ | GYD | HKD | HNL | HRK | HTG | HUF | IDR
  | ILS | INR | IQD | IRR | ISK | JMD | JOD | JPY | KES | KGS
  | KHR | KMF | KPW | KRW | KWD | KYD | KZT | LAK | LBP | LKR
  | LRD | LSL | LTL | LVL | LYD | MAD | MDL | MGA | MKD | MMK
  | MNT | MOP | MRO | MUR | MVR | MWK | MXN | MYR | MZN | NAD
  | NGN | NIO | NOK | NPR | NZD | OMR | PAB | PEN | PGK | PHP
  | PKR | PLN | PYG | QAR | RON | RSD | RUB | RWF | SAR | SBD
  | SCR | SDG | SEK | SGD | SHP | SLL | SOS | SRD | STD | SVC
  | SYP | SZL | THB | TJS | TMT | TND | TOP | TRY | TTD | TWD
  | TZS | UAH | UGX | USD | UYU | UZS | VES | VND | VUV | WST
  | XAF | XCD | XOF | XPF | YER | ZAR | ZMW | ZWL
deriving DecidableEq, Repr

/-- Models `bigdecimal`'s `ToPrimitive::to_u64` applied to an exact decimal
value: a negative value yields `None`; otherwise the value is truncated
toward zero (`with_scale(0)` divides the mantissa with `BigInt` division,
which truncates) and converted, yielding `None` when the truncation does
not fit in 64 unsigned bits. -/
def toU64 (q : ℚ) : Option ℕ :=
  if q < 0 then none
  else if 2 ^ 64 ≤ ⌊q⌋ then none
  else some ⌊q⌋.toNat

/-- The zero-decimal currencies: the branch list shared by both arms of the
match in `Amount::into` / `Amount::from` (`src/types/currency.rs`). -/
def Currency.zeroDecimal : List Currency :=
  [.BIF, .CLF, .DJF, .GNF, .ISK, .JPY, .KMF, .KRW,
   .PYG, .RWF, .UGX, .VND, .VUV, .XAF, .XOF, .XPF]

/-- The three-decimal currencies: the second branch list of the match in
`Amount::into` / `Amount::from` (`src/types/currency.rs`). -/
def Currency.threeDecimal : List Currency :=
  [.BHD, .IQD, .JOD, .KWD, .LYD, .OMR, .TND]

/-- `Amount::into(self, currency)` from `src/types/currency.rs`: recovers the
decimal value of a stored minor-unit integer.  Zero-decimal currencies keep
the value as is; the three-decimal group divides by 1000; every other
currency divides by 100. -/
def Amount.into (a : ℕ) (currency : Currency) : ℚ :=
  match currency with
  | .BIF | .CLF | .DJF | .GNF | .ISK | .JPY | .KMF | .KRW
  | .PYG | .RWF | .UGX | .VND | .VUV | .XAF | .XOF | .XPF =>
      (a : ℚ)
  | .BHD | .IQD | .JOD | .KWD | .LYD | .OMR | .TND =>
      (a : ℚ) / 1000
  | _ =>
      (a : ℚ) / 100

/-- `Amount::from(currency, amount)` from `src/types/currency.rs`: scales the
decimal value by the currency's class factor and converts it with
`.to_u64().unwrap()`.  The `unwrap` panic (negative or too-large product) is
modelled by `none`. -/
def Amount.from' (currency : Currency) (amount : ℚ) : Option ℕ :=
  match currency with
  | .BIF | .CLF | .DJF | .GNF | .ISK | .JPY | .KMF | .KRW
  | .PYG | .RWF | .UGX | .VND | .VUV | .XAF | .XOF | .XPF =>
      toU64 amount
  | .BHD | .IQD | .JOD | .KWD | .LYD | .OMR | .TND =>
      toU64 (amount * 1000)
  | _ =>
      toU64 (amount * 100)

/-- The scale factor of a currency's class: 1, 1000 or 100.  Factored out of
the (identical) match structure of `Amount::into` and `Amount::from`. -/
def Currency.scale (currency : Currency) : ℕ :=
  match currency with
  | .BIF | .CLF | .DJF | .GNF | .ISK | .JPY | .KMF | .KRW
  | .PYG | .RWF | .UGX | .VND | .VUV | .XAF | .XOF | .XPF => 1
  | .BHD | .IQD | .JOD | .KWD | .LYD | .OMR | .TND => 1000
  | _ => 100

/-- The minor-unit exponent of a currency's class, as the specification
presents it: 0 for the zero-decimal group, 3 for the three-decimal group,
2 otherwise. -/
def Currency.exponent (currency : Currency) : ℕ :=
  match currency with
  | .BIF | .CLF | .DJF | .GNF | .ISK | .JPY | .KMF | .KRW
  | .PYG | .RWF | .UGX | .VND | .VUV | .XAF | .XOF | .XPF => 0
  | .BHD | .IQD | .JOD | .KWD | .LYD | .OMR | .TND => 3
  | _ => 2

theorem Currency.scale_pos (c : Currency) : 0 < c.scale := by
  cases c <;> norm_num [Currency.scale]

theorem Currency.scale_eq_pow_exponent (c : Currency) :
    c.scale = 10 ^ c.exponent := by
  cases c <;> rfl

/-- `Amount::from` is the scaled-by-class application of `to_u64`. -/
theorem Amount.from'_eq (c : Currency) (v : ℚ) :
    Amount.from' c v = toU64 (v * c.scale) := by
  cases c <;> simp [Amount.from', Currency.scale]

/-- `Amount::into` divides the stored integer by the class scale. -/
theorem Amount.into_eq (a : ℕ) (c : Currency) :
    Amount.into a c = (a : ℚ) / c.scale := by
  cases c <;> simp [Amount.into, Currency.scale]

/-- A nonnegative rational with denominator 1 that fits below `2 ^ 64`
converts exactly. -/
theorem toU64_int (q : ℚ) (h0 : 0 ≤ q) (hden : q.den = 1) (hlt : q < 2 ^ 64) :
    ∃ m : ℕ, toU64 q = some m ∧ (m : ℚ) = q := by
  have hnum : (q.num : ℚ) = q := (Rat.den_eq_one_iff q).mp hden
  have hfloor : ⌊q⌋ = q.num := by
    nth_rewrite 1 [← hnum]
    exact Int.floor_intCast q.num
  have hnn : 0 ≤ q.num := Rat.num_nonneg.mpr h0
  refine ⟨q.num.toNat, ?_, ?_⟩
  · have c1 : ¬q < 0 := not_lt.mpr h0
    have c2 : ¬(2 ^ 64 : ℤ) ≤ ⌊q⌋ := by
      rw [hfloor, not_le]
      have : (q.num : ℚ) < ((2 ^ 64 : ℤ) : ℚ) := by push_cast; rw [hnum]; exact hlt
      exact_mod_cast this
    have c2' : ¬(2 ^ 64 : ℤ) ≤ q.num := hfloor ▸ c2
    simp only [toU64, if_neg c1, if_neg c2, if_neg c2', hfloor]
  · have : ((q.num.toNat : ℤ) : ℚ) = q := by rw [Int.toNat_of_nonneg hnn]; exact hnum
    exact_mod_cast this

/-- `to_u64` on (the cast of) a natural number below `2 ^ 64`. -/
theorem toU64_natCast (m : ℕ) (h : m < 2 ^ 64) : toU64 (m : ℚ) = some m := by
  obtain ⟨k, hk, hk2⟩ := toU64_int (m : ℚ) (by positivity) (Rat.den_natCast m)
    (by exact_mod_cast h)
  have : k = m := by exact_mod_cast hk2
  rwa [this] at hk

/-- General form of the exponent-class encoding law, for exactly
representable face values. -/
theorem Amount.from'_natCast (c : Currency) (n : ℕ)
    (h : n * c.scale < 2 ^ 64) :
    Amount.from' c (n : ℚ) = some (n * c.scale) := by
  rw [Amount.from'_eq]
  have : ((n : ℚ) * c.scale) = ((n * c.scale : ℕ) : ℚ) := by push_cast; ring
  rw [this]
  exact toU64_natCast _ h

theorem Currency.scale_of_mem_zeroDecimal {c : Currency}
    (h : c ∈ Currency.zeroDecimal) : c.scale = 1 := by
  fin_cases h <;> rfl

theorem Currency.scale_of_mem_threeDecimal {c : Currency}
    (h : c ∈ Currency.threeDecimal) : c.scale = 1000 := by
  fin_cases h <;> rfl

theorem Currency.scale_of_default {c : Currency}
    (hz : c ∉ Currency.zeroDecimal) (ht : c ∉ Currency.threeDecimal) :
    c.scale = 100 := by
  cases c <;>
    first
      | rfl
      | exact absurd (by decide) hz
      | exact absurd (by decide) ht

/-- C3.  For every currency and every non-negative decimal value whose scale
matches the currency's minor-unit exponent (its scaled value is an integer)
and whose scaled integer fits in the unsigned 64-bit width, decoding the
encoding returns the original value: `Amount::from(currency, v)` followed by
`Amount::into(currency)` equals `v`. -/
theorem amount_round_trip (c : Currency) (v : ℚ) (h0 : 0 ≤ v)
    (hden : (v * c.scale).den = 1) (hlt : v * c.scale < 2 ^ 64) :
    (Amount.from' c v).map (fun a => Amount.into a c) = some v := by
  have hs : (0 : ℚ) < c.scale := by exact_mod_cast c.scale_pos
  obtain ⟨m, hm, hm2⟩ := toU64_int (v * c.scale) (by positivity) hden hlt
  rw [Amount.from'_eq, hm, Option.map_some', Amount.into_eq, hm2,
    mul_div_cancel_right₀ v (ne_of_gt hs)]

/-- Witness for C3 at `USD` and `v = 5/2` (scaled integer 250). -/
theorem amount_round_trip_witness :
    (Amount.from' Currency.USD (5 / 2)).map
      (fun a => Amount.into a Currency.USD) = some (5 / 2) :=
  amount_round_trip Currency.USD (5 / 2) (by norm_num)
    (by norm_num [Currency.scale]) (by norm_num [Currency.scale])

/-- C4.  Encoding scales by the currency's exponent class: for the
zero-decimal currencies the encoded integer equals the face value, for the
three-decimal currencies it equals the face value times 1000, and for every
other currency it equals the face value times 100; in particular
`encode(JPY, 100) = 100`, `encode(KWD, 1.000) = 1000` and
`encode(USD, 1.00) = 100`. -/
theorem amount_exponent_classes :
    (∀ c ∈ Currency.zeroDecimal, ∀ n : ℕ, n < 2 ^ 64 →
        Amount.from' c (n : ℚ) = some n)
  ∧ (∀ c ∈ Currency.threeDecimal, ∀ n : ℕ, n * 1000 < 2 ^ 64 →
        Amount.from' c (n : ℚ) = some (n * 1000))
  ∧ (∀ c : Currency, c ∉ Currency.zeroDecimal → c ∉ Currency.threeDecimal →
        ∀ n : ℕ, n * 100 < 2 ^ 64 → Amount.from' c (n : ℚ) = some (n * 100))
  ∧ Amount.from' Currency.JPY 100 = some 100
  ∧ Amount.from' Currency.KWD 1 = some 1000
  ∧ Amount.from' Currency.USD 1 = some 100 := by
  refine ⟨?_, ?_, ?_, ?_, ?_, ?_⟩
  · intro c hc n hn
    have := Amount.from'_natCast c n
      (by rw [Currency.scale_of_mem_zeroDecimal hc]; simpa using hn)
    rwa [Currency.scale_of_mem_zeroDecimal hc, mul_one] at this
  · intro c hc n hn
    have := Amount.from'_natCast c n
      (by rw [Currency.scale_of_mem_threeDecimal hc]; exact hn)
    rwa [Currency.scale_of_mem_threeDecimal hc] at this
  · intro c hz ht n hn
    have := Amount.from'_natCast c n
      (by rw [Currency.scale_of_default hz ht]; exact hn)
    rwa [Currency.scale_of_default hz ht] at this
  · norm_num [Amount.from', toU64]
    rfl
  · norm_num [Amount.from', toU64]
    rfl
  · norm_num [Amount.from', toU64]
    rfl

/-- Witness for C4: one currency from each exponent class at the spec's
example values. -/
theorem amount_exponent_classes_witness :
    Amount.from' Currency.JPY ((100 : ℕ) : ℚ) = some 100
  ∧ Amount.from' Currency.KWD ((1 : ℕ) : ℚ) = some (1 * 1000)
  ∧ Amount.from' Currency.EUR ((1 : ℕ) : ℚ) = some (1 * 100) :=
  ⟨amount_exponent_classes.1 Currency.JPY (by decide) 100 (by norm_num),
   amount_exponent_classes.2.1 Currency.KWD (by decide) 1 (by norm_num),
   amount_exponent_classes.2.2.1 Currency.EUR (by decide) (by decide) 1
     (by norm_num)⟩

/-- C5 counterexample.  `Amount::from(USD, -0.01)` does not return a range
error: the code's `.to_u64()` yields `None` and the `.unwrap()` panics
(modelled by `none`); likewise for a value whose scaled integer exceeds the
unsigned 64-bit width.  There is no error channel in `Amount::from`'s return
type at all. -/
theorem amount_encode_negative_counterexample :
    Amount.from' Currency.USD (-1 / 100) = none
      ∧ Amount.from' Currency.USD ((2 : ℚ) ^ 64) = none := by
  constructor <;> norm_num [Amount.from', toU64]

/-- C5 amended.  Encoding a negative decimal value, or any value whose scaled
integer reaches `2 ^ 64`, makes the unchecked `to_u64` conversion yield no
value, so `Amount::from`'s `unwrap` panics (modelled by `none`) instead of
returning a range error. -/
theorem amount_encode_out_of_range_panics (c : Currency) (v : ℚ) :
    (v < 0 → Amount.from' c v = none)
      ∧ ((2 : ℚ) ^ 64 ≤ v * c.scale → Amount.from' c v = none) := by
  have hs : (0 : ℚ) < c.scale := by exact_mod_cast c.scale_pos
  constructor
  · intro hv
    rw [Amount.from'_eq]
    have : v * c.scale < 0 := mul_neg_of_neg_of_pos hv hs
    simp [toU64, this]
  · intro hv
    rw [Amount.from'_eq]
    have h0 : ¬v * c.scale < 0 := by
      push_neg
      calc (0 : ℚ) ≤ 2 ^ 64 := by positivity
        _ ≤ v * c.scale := hv
    have h2 : (2 ^ 64 : ℤ) ≤ ⌊v * c.scale⌋ := by
      rw [Int.le_floor]
      push_cast
      exact hv
    simp only [toU64, if_neg h0, if_pos h2]

/-- Witness for C5 amended: both panic modes at concrete inputs. -/
theorem amount_encode_out_of_range_panics_witness :
    Amount.from' Currency.USD (-1 / 100) = none
      ∧ Amount.from' Currency.USD ((2 : ℚ) ^ 64) = none :=
  ⟨(amount_encode_out_of_range_panics Currency.USD (-1 / 100)).1 (by norm_num),
   (amount_encode_out_of_range_panics Currency.USD ((2 : ℚ) ^ 64)).2
     (by norm_num [Currency.scale])⟩

/-- C9.  Decoding is total: for every currency and every stored unsigned
64-bit value, `Amount::into` returns the stored integer divided by
`10 ^ exponent` for the currency's class; it is a total function (no failure
or panic is possible: the divisions by 100 and 1000 are exact decimal
operations). -/
theorem amount_decode_total (c : Currency) (a : ℕ) (h : a < 2 ^ 64) :
    Amount.into a c = (a : ℚ) / 10 ^ c.exponent := by
  rw [Amount.into_eq, Currency.scale_eq_pow_exponent]
  push_cast
  ring

/-- Witness for C9 at `a = 250`, `USD`. -/
theorem amount_decode_total_witness :
    Amount.into 250 Currency.USD = (250 : ℚ) / 10 ^ Currency.exponent Currency.USD :=
  amount_decode_total Currency.USD 250 (by norm_num)

/-- Models Rust's `char::to_ascii_lowercase`: maps `A`–`Z` to `a`–`z` (a
shift by 32) and leaves every other character unchanged. -/
def asciiLowercaseChar (ch : Char) : Char :=
  if 'A' ≤ ch ∧ ch ≤ 'Z' then Char.ofNat (ch.toNat + 32) else ch

/-- Models `str::trim`: removes leading and trailing whitespace.  (Rust trims
by Unicode `White_Space`; the difference to `Char.isWhitespace` is confined
to exotic whitespace code points and does not affect any claim.) -/
def trimChars (l : List Char) : List Char :=
  ((l.dropWhile Char.isWhitespace).reverse.dropWhile Char.isWhitespace).reverse

/-- The string actually matched by `Environment::from_str`
(`src/lib.rs`): `s.to_ascii_lowercase().trim()` — lowercased first, then
trimmed. -/
def envKey (s : String) : String :=
  ⟨trimChars (s.data.map asciiLowercaseChar)⟩

/-- `Environment` from `src/lib.rs`: API environments to differentiate
between testing environments and live. -/
inductive Environment where
  | Production
  | Sandbox
deriving DecidableEq, Repr

/-- `ParseEnvironmentError` from `src/lib.rs`: could not parse an
environment; contains the string the match failed on. -/
structure ParseEnvironmentError where
  inner : String
deriving DecidableEq, Repr

/-- `Environment::from_str` from `src/lib.rs`: matches the lowercased,
trimmed input against the recognized names; on failure the error carries
`val` — the lowercased, trimmed string, not the original input. -/
def Environment.fromStr (s : String) : Except ParseEnvironmentError Environment :=
  let val := envKey s
  if val = "prod" ∨ val = "production" then .ok .Production
  else if val = "dev" ∨ val = "development" ∨ val = "sandbox" then .ok .Sandbox
  else .error ⟨val⟩

/-- `Environment::api_url` from `src/lib.rs`. -/
def Environment.apiUrl : Environment → String
  | .Sandbox => "https://api.sandbox.checkout.com"
  | .Production => "https://api.checkout.com"

/-- `Environment::access_url` from `src/lib.rs`. -/
def Environment.accessUrl : Environment → String
  | .Sandbox => "https://access.sandbox.checkout.com"
  | .Production => "https://access.checkout.com"

/-- C6 counterexample.  Parsing `"STAGING"` fails carrying `"staging"`, not
the original input `"STAGING"`; and `" prod "` — whose case-insensitive form
`" prod "` is in neither recognized set — nevertheless parses successfully,
because the code trims after lowercasing. -/
theorem environment_parse_error_counterexample :
    Environment.fromStr "STAGING" = .error ⟨"staging"⟩
      ∧ Environment.fromStr "STAGING" ≠ .error ⟨"STAGING"⟩
      ∧ Environment.fromStr " prod " = .ok .Production := by
  refine ⟨rfl, ?_, rfl⟩
  intro h
  rw [show Environment.fromStr "STAGING" = .error ⟨"staging"⟩ from rfl] at h
  injection h with h2
  injection h2 with h3
  exact absurd h3 (by decide)

/-- C6 amended.  For every input string, with `t` the trimmed
ASCII-lowercased form of the input: if `t` is `"prod"` or `"production"` the
parse yields `Production`; if `t` is `"dev"`, `"development"` or `"sandbox"`
it yields `Sandbox`; otherwise it fails with a parse error carrying `t`
(the lowercased, trimmed form — not the original input). -/
theorem environment_fromStr_spec (s : String) :
    ((envKey s = "prod" ∨ envKey s = "production") →
        Environment.fromStr s = .ok .Production)
  ∧ ((envKey s = "dev" ∨ envKey s = "development" ∨ envKey s = "sandbox") →
        Environment.fromStr s = .ok .Sandbox)
  ∧ ((envKey s ≠ "prod" ∧ envKey s ≠ "production" ∧ envKey s ≠ "dev"
        ∧ envKey s ≠ "development" ∧ envKey s ≠ "sandbox") →
        Environment.fromStr s = .error ⟨envKey s⟩) := by
  refine ⟨fun h => ?_, fun h => ?_, fun h => ?_⟩
  · unfold Environment.fromStr
    rw [if_pos h]
  · have h1 : ¬(envKey s = "prod" ∨ envKey s = "production") := by
      rcases h with h | h | h <;> rw [h] <;> decide
    unfold Environment.fromStr
    rw [if_neg h1, if_pos h]
  · obtain ⟨a, b, c, d, e⟩ := h
    have h1 : ¬(envKey s = "prod" ∨ envKey s = "production") := by
      simp [a, b]
    have h2 : ¬(envKey s = "dev" ∨ envKey s = "development"
        ∨ envKey s = "sandbox") := by
      simp [c, d, e]
    unfold Environment.fromStr
    rw [if_neg h1, if_neg h2]

/-- Witness for C6 amended, at the spec's own examples. -/
theorem environment_fromStr_spec_witness :
    Environment.fromStr "PROD" = .ok .Production
      ∧ Environment.fromStr "Development" = .ok .Sandbox
      ∧ Environment.fromStr "staging" = .error ⟨envKey "staging"⟩ :=
  ⟨(environment_fromStr_spec "PROD").1 (Or.inl rfl),
   (environment_fromStr_spec "Development").2.1 (Or.inr (Or.inl rfl)),
   (environment_fromStr_spec "staging").2.2
     ⟨by decide, by decide, by decide, by decide, by decide⟩⟩

/-- `ApiError` from `src/lib.rs`: an error reported by the remote API. -/
structure ApiError where
  request_id : String
  error_type : String
  error_codes : List String
deriving DecidableEq, Repr

/-- `Error` from `src/lib.rs`: everything that can go wrong when sending a
request.  `Transport` wraps a `reqwest::Error` in the source; the wrapped
transport-layer cause carries no logic and is not modelled. -/
inductive Error where
  | Api : ApiError → Error
  | Unauthorized : Error
  | InvalidData : ApiError → Error
  | TooManyRequests : Error
  | Unknown : ℕ → String → Error
  | Transport : Error
deriving DecidableEq, Repr

/-- `Link` from `src/types/links.rs`. -/
structure Link where
  href : String
deriving DecidableEq, Repr

/-- `Links` from `src/types/links.rs`: a `HashMap<String, Link>`, modelled
as an association list. -/
abbrev Links : Type := List (String × Link)

/-- `Metadata` from `src/types/mod.rs`: a `HashMap<String, String>`,
modelled as an association list. -/
abbrev Metadata : Type := List (String × String)

/-- `PhoneNumber` from `src/types/mod.rs`. -/
structure PhoneNumber where
  country_code : String
  number : String
deriving DecidableEq, Repr

/-- `Address` from `src/types/mod.rs`. -/
structure Address where
  address_line1 : Option String
  address_line2 : Option String
  city : Option String
  state : Option String
  zip : Option String
  country : Option String
deriving DecidableEq, Repr

/-- `PaymentType` from `src/types/mod.rs`. -/
inductive PaymentType where
  | Regular
  | Recurring
  | Moto
deriving DecidableEq, Repr

/-- `CustomerDescriptor` from `src/types/mod.rs`. -/
structure CustomerDescriptor where
  id : Option String
  email : Option String
  name : Option String
deriving DecidableEq, Repr

/-- `BillingDescriptor` from `src/types/mod.rs`. -/
structure BillingDescriptor where
  name : String
  city : String
deriving DecidableEq, Repr

/-- `ShippingDescriptor` from `src/types/mod.rs`. -/
structure ShippingDescriptor where
  address : Option Address
  phone : Option PhoneNumber
deriving DecidableEq, Repr

/-- `ScaExemption` from `src/types/mod.rs`. -/
inductive ScaExemption where
  | LowValue
  | SecureCorporatePayment
  | TrustedListing
deriving DecidableEq, Repr

/-- `_3DSRequest` from `src/types/mod.rs`. -/
structure _3DSRequest where
  enabled : Option Bool
  attempt_n3d : Option Bool
  sci : Option String
  cryptogram : Option String
  xid : Option String
  version : Option String
  exemption : Option ScaExemption
deriving DecidableEq, Repr

/-- `RiskRequest` from `src/types/mod.rs`. -/
structure RiskRequest where
  enabled : Bool
deriving DecidableEq, Repr

/-- `PaymentRecipient` from `src/types/mod.rs`. -/
structure PaymentRecipient where
  dob : Option String
  account_number : Option String
  zip : Option String
  first_name : Option String
  last_name : Option String
deriving DecidableEq, Repr

/-- `PaymentProcessingDescriptor` from `src/types/mod.rs`. -/
structure PaymentProcessingDescriptor where
  aft : Bool
deriving DecidableEq, Repr

/-- `PaymentRequestSource` from `src/types/mod.rs`. -/
inductive PaymentRequestSource where
  | Card (number : String) (expiry_month : ℕ) (expiry_year : ℕ)
      (name : Option String) (cvv : Option String) (stored : Option Bool)
      (billing_address : Option Address) (phone : Option PhoneNumber)
deriving DecidableEq, Repr

/-- `PaymentRequestDestination` from `src/types/mod.rs`. -/
inductive PaymentRequestDestination where
  | Card (number : String) (expiry_month : String) (expiry_year : String)
      (first_name : String) (last_name : String) (name : Option String)
      (billing_address : Option Address) (phone : Option PhoneNumber)
deriving DecidableEq, Repr

/-- `PaymentStatus` from `src/types/mod.rs`. -/
inductive PaymentStatus where
  | Authorized
  | Pending
  | CardVerified
  | Voided
  | PartiallyCaptured
  | Captured
  | PartiallyRefunded
  | Refunded
  | Declined
  | Cancelled
  | Paid
  | Expired
deriving DecidableEq, Repr

/-- `_3dsEnrollmentStatus` from `src/types/mod.rs`. -/
inductive _3dsEnrollmentStatus where
  | IssuerEnrolled
  | NotEnrolled
  | Unknown
deriving DecidableEq, Repr

/-- `_3dsAuthenticationStatus` from `src/types/mod.rs`. -/
inductive _3dsAuthenticationStatus where
  | Authenticated
  | NotAuthenticated
  | Attempted
  | Unable
deriving DecidableEq, Repr

/-- `_3dsStatus` from `src/types/mod.rs`. -/
structure _3dsStatus where
  downgraded : Bool
  enrolled : _3dsEnrollmentStatus
  signature_valid : Option String
  authentication_response : Option _3dsAuthenticationStatus
  cryptogram : Option String
  xid : Option String
  version : Option String
  exemption : Option ScaExemption
deriving DecidableEq, Repr

/-- `RiskResults` from `src/types/mod.rs`. -/
structure RiskResults where
  flagged : Bool
deriving DecidableEq, Repr

/-- `CardType` from `src/types/mod.rs`. -/
inductive CardType where
  | Credit
  | Debit
  | Prepaid
  | Charge
  | DeferredDebit
deriving DecidableEq, Repr

/-- `CardCategory` from `src/types/mod.rs`. -/
inductive CardCategory where
  | Consumer
  | Commercial
deriving DecidableEq, Repr

/-- `PaymentProcessedSource` from `src/types/mod.rs`. -/
inductive PaymentProcessedSource where
  | Card (id : Option String) (billing_address : Option Address)
      (phone : Option PhoneNumber) (expiry_month : ℕ) (expiry_year : ℕ)
      (name : Option String) (scheme : Option String) (last4 : String)
      (fingerprint : String) (bin : String) (card_type : Option CardType)
      (card_category : CardCategory) (issuer : Option String)
      (issuer_country : Option String) (product_id : Option String)
      (product_type : Option String) (cvv_result : Option String)
      (payouts : Option Bool) (fast_funds : Option Bool)
      (payment_account_reference : Option String)
deriving DecidableEq, Repr

/-- `PaymentProcessedDestination` from `src/types/mod.rs`. -/
inductive PaymentProcessedDestination where
  | Card (id : Option String) (billing_address : Option Address)
      (phone : Option PhoneNumber) (expiry_month : ℕ) (expiry_year : ℕ)
      (name : Option String) (scheme : Option String) (last4 : String)
      (fingerprint : String) (bin : String) (card_type : Option CardType)
      (card_category : CardCategory) (issuer : Option String)
      (issuer_country : Option String) (product_id : Option String)
      (product_type : Option String) (cvv_result : Option String)
      (payouts : Option Bool) (fast_funds : Option Bool)
      (payment_account_reference : Option String)
deriving DecidableEq, Repr

/-- `CustomerInfo` from `src/types/mod.rs`. -/
structure CustomerInfo where
  id : String
  email : Option String
  name : Option String
deriving DecidableEq, Repr

/-- `PaymentProcessingInfo` from `src/types/mod.rs`. -/
structure PaymentProcessingInfo where
  retrieval_reference_number : Option String
  acquirer_transaction_id : Option String
deriving DecidableEq, Repr

/-- `ActionProcessingInfo` from `src/types/mod.rs`. -/
structure ActionProcessingInfo where
  retrieval_reference_number : Option String
  acquirer_reference_number : Option String
  acquirer_transaction_id : Option String
deriving DecidableEq, Repr

/-- `ActionSummary` from `src/types/mod.rs`. -/
structure ActionSummary where
  id : String
  ty : String
  response_code : String
  response_summary : Option String
deriving DecidableEq, Repr

/-- `Action` from `src/types/mod.rs`. -/
structure Action where
  id : String
  ty : String
  processed_on : String
  amount : ℕ
  approved : Option Bool
  auth_code : Option String
  response_code : String
  response_summary : Option String
  reference : Option String
  processing : Option ActionProcessingInfo
  metadata : Metadata
deriving DecidableEq, Repr

/-- `PaymentProcessed` from `src/types/mod.rs`: the response body of an
immediately processed payment. -/
structure PaymentProcessed where
  id : String
  action_id : String
  amount : ℕ
  currency : String
  approved : Bool
  status : PaymentStatus
  auth_code : Option String
  response_code : String
  response_summary : Option String
  three_ds : Option _3dsStatus
  risk : Option RiskResults
  source : Option PaymentProcessedSource
  customer : Option CustomerInfo
  processed_on : String
  reference : Option String
  processing : Option PaymentProcessingInfo
  eci : Option String
  scheme_id : Option String
  links : Option Links
deriving DecidableEq, Repr

/-- `PendingPayment` from `src/types/mod.rs`: the response body of a payment
being processed asynchronously. -/
structure PendingPayment where
  id : String
  status : PaymentStatus
  customer : Option CustomerInfo
  reference : Option String
  three_ds : Option _3dsStatus
  links : Option Links
deriving DecidableEq, Repr

/-- `PaymentDetails` from `src/types/mod.rs`. -/
structure PaymentDetails where
  id : String
  requested_on : String
  source : Option PaymentProcessedSource
  destination : Option PaymentProcessedDestination
  amount : ℕ
  currency : String
  payment_type : PaymentType
  reference : Option String
  description : Option String
  approved : Bool
  status : PaymentStatus
  three_ds : Option _3dsStatus
  risk : Option RiskResults
  customer : Option CustomerInfo
  billing_descriptor : Option BillingDescriptor
  shipping : Option ShippingDescriptor
  payment_ip : Option String
  recipient : Option PaymentRecipient
  metadata : Option Metadata
  eci : Option String
  scheme_id : Option String
  actions : Option (List ActionSummary)
  links : Option Links
deriving DecidableEq, Repr

/-- `OAuthTokenRequest` from `src/types/requests.rs`: the form-encoded body
used to authenticate. -/
structure OAuthTokenRequest where
  grant_type : String
  scope : String
deriving DecidableEq, Repr

/-- Modelled from the spec: `OAuthTokenResponse`, the token endpoint's JSON
response body, is referenced by `Client::authorize` in `src/lib.rs` but its
definition is not under `src/`.  Spec section 3 describes it as an opaque
token string plus an expiry duration, and section 4.2 says `authorize`
"parses JSON body for `access_token` field". -/
structure OAuthTokenResponse where
  access_token : String
  expires_in : ℕ
deriving DecidableEq, Repr

/-- `CreatePaymentRequest` from `src/types/requests.rs`. -/
structure CreatePaymentRequest where
  source : Option PaymentRequestSource
  destination : Option PaymentRequestDestination
  amount : Option ℕ
  currency : String
  payment_type : PaymentType
  merchant_initiated : Bool
  reference : Option String
  description : Option String
  capture : Option Bool
  capture_on : Option String
  customer : Option CustomerDescriptor
  billing_descriptor : Option BillingDescriptor
  shipping : Option ShippingDescriptor
  three_ds : Option _3DSRequest
  previous_payment_id : Option String
  risk : Option RiskRequest
  success_url : Option String
  failure_url : Option String
  payment_ip : Option String
  recipient : Option PaymentRecipient
  processing : Option PaymentProcessingDescriptor
  metadata : Option Metadata
deriving DecidableEq, Repr

/-- `CapturePaymentBody` from `src/types/requests.rs`. -/
structure CapturePaymentBody where
  amount : Option ℕ
  reference : Option String
  metadata : Option Metadata
deriving DecidableEq, Repr

/-- `RefundPaymentBody` from `src/types/requests.rs`. -/
structure RefundPaymentBody where
  amount : Option ℕ
  reference : Option String
  metadata : Option Metadata
deriving DecidableEq, Repr

/-- `VoidPaymentBody` from `src/types/requests.rs`. -/
structure VoidPaymentBody where
  reference : Option String
  metadata : Option Metadata
deriving DecidableEq, Repr

/-- `CreatePaymentResponse` from `src/types/responses.rs`. -/
inductive CreatePaymentResponse where
  | Processed : PaymentProcessed → CreatePaymentResponse
  | Pending : PendingPayment → CreatePaymentResponse
deriving DecidableEq, Repr

/-- `CapturePaymentResponse` from `src/types/responses.rs`. -/
structure CapturePaymentResponse where
  action_id : String
  reference : Option String
  links : Option Links
deriving DecidableEq, Repr

/-- `RefundPaymentResponse` from `src/types/responses.rs`. -/
structure RefundPaymentResponse where
  action_id : String
  reference : Option String
  links : Option Links
deriving DecidableEq, Repr

/-- `VoidPaymentResponse` from `src/types/responses.rs`. -/
structure VoidPaymentResponse where
  action_id : String
  reference : Option String
  links : Option Links
deriving DecidableEq, Repr

/-- `GetPaymentDetailsResponse` from `src/types/responses.rs`. -/
abbrev GetPaymentDetailsResponse : Type := PaymentDetails

/-- `GetPaymentActionsResponse` from `src/types/responses.rs`. -/
abbrev GetPaymentActionsResponse : Type := List Action

/-- `Client` from `src/lib.rs`.  The `reqwest` client handle holds no logic
and is not modelled; the `SecretString` secrecy wrappers around the
credentials are modelled as the wrapped strings (`expose_secret` is the
only access the code performs). -/
structure Client where
  environment : Environment
  username : String
  password : String
deriving DecidableEq, Repr

/-- `Client::new` from `src/lib.rs`. -/
def Client.new (username password : String) (environment : Environment) : Client :=
  ⟨environment, username, password⟩

/-- The outbound request that `Client::authorize` builds: a form-encoded
POST to `{access_url}/connect/token` with HTTP Basic auth. -/
structure AuthRequest where
  url : String
  basicUsername : String
  basicPassword : String
  form : OAuthTokenRequest
deriving DecidableEq, Repr

/-- The request-building half of `Client::authorize` (`src/lib.rs`). -/
def Client.authorizeRequest (c : Client) : AuthRequest :=
  { url := c.environment.accessUrl ++ "/connect/token"
    basicUsername := c.username
    basicPassword := c.password
    form := { grant_type := "client_credentials", scope := "gateway" } }

/-- The token endpoint's reply: its status code and the outcome of
deserializing its body as `OAuthTokenResponse` (`none` models a body that
fails to deserialize). -/
structure TokenEndpointResponse where
  status : ℕ
  body : Option OAuthTokenResponse
deriving DecidableEq, Repr

/-- The response-classification half of `Client::authorize` (`src/lib.rs`):
only status 200 succeeds, returning the `access_token` field; every other
status is `Error::Unauthorized`.  A 200 body that fails to deserialize
propagates as a transport error via `?`. -/
def authorizeClassify (resp : TokenEndpointResponse) : Except Error String :=
  if resp.status = 200 then
    match resp.body with
    | some b => .ok b.access_token
    | none => .error .Transport
  else .error .Unauthorized

/-- The HTTP requests a client call attempts, in order. -/
inductive Event where
  | tokenRequest : Event
  | resourceRequest (url : String) : Event
deriving DecidableEq, Repr

/-- A resource endpoint's reply as observed by `send_get_request` /
`send_post_request`: status code, the outcome of deserializing the body as
the expected response type `R`, and the outcome of deserializing it as
`ApiError` (the type requested on the failure path). -/
structure JsonResponse (R : Type) where
  status : ℕ
  okBody : Option R
  errBody : Option ApiError

/-- `StatusCode::is_success` from the `http` crate: 2xx. -/
def statusIsSuccess (status : ℕ) : Bool :=
  200 ≤ status && status < 300

/-- `Client::send_get_request` from `src/lib.rs`: authorize, then GET with
bearer auth; a successful status deserializes the body as `R`, any other
status deserializes the body as `ApiError` and wraps it in `Error::Api`.
Deserialization failures propagate as transport errors via `?`.  The second
component is the trace of requests attempted. -/
def Client.sendGetRequest {R : Type} (c : Client) (tok : TokenEndpointResponse)
    (resp : JsonResponse R) (url : String) : Except Error R × List Event :=
  match authorizeClassify tok with
  | .error e => (.error e, [.tokenRequest])
  | .ok _token =>
      (if statusIsSuccess resp.status then
          match resp.okBody with
          | some body => .ok body
          | none => .error .Transport
        else
          match resp.errBody with
          | some apiErr => .error (.Api apiErr)
          | none => .error .Transport,
        [.tokenRequest, .resourceRequest url])

/-- `Client::send_post_request` from `src/lib.rs`: authorize, then POST the
JSON-serialized `body` with bearer auth; the response classification is the
same as `send_get_request`'s. -/
def Client.sendPostRequest {B R : Type} (c : Client) (tok : TokenEndpointResponse)
    (resp : JsonResponse R) (url : String) (body : B) :
    Except Error R × List Event :=
  match authorizeClassify tok with
  | .error e => (.error e, [.tokenRequest])
  | .ok _token =>
      (if statusIsSuccess resp.status then
          match resp.okBody with
          | some okBody => .ok okBody
          | none => .error .Transport
        else
          match resp.errBody with
          | some apiErr => .error (.Api apiErr)
          | none => .error .Transport,
        [.tokenRequest, .resourceRequest url])

/-- The raw resource reply handed back by `send_post_request_2` to its only
caller, `create_payment`: status code, the outcome of deserializing the
body at each type the dispatcher may request, and the raw body text. -/
structure PaymentHttpResponse where
  status : ℕ
  processedBody : Option PaymentProcessed
  pendingBody : Option PendingPayment
  errBody : Option ApiError
  text : String

/-- `Client::send_post_request_2` from `src/lib.rs`: authorize, then POST
the JSON-serialized `body` with bearer auth, returning the raw response
without inspecting its status. -/
def Client.sendPostRequest2 {B : Type} (c : Client) (tok : TokenEndpointResponse)
    (resp : PaymentHttpResponse) (url : String) (body : B) :
    Except Error PaymentHttpResponse × List Event :=
  match authorizeClassify tok with
  | .error e => (.error e, [.tokenRequest])
  | .ok _token => (.ok resp, [.tokenRequest, .resourceRequest url])

/-- `Client::create_payment` from `src/lib.rs`: POST to
`{api_url}/payments` via `send_post_request_2`, then dispatch on the
response status: 201 Created deserializes a `PaymentProcessed`, 202
Accepted a `PendingPayment`, 401 is `Unauthorized`, 422 deserializes the
`ApiError` body into `InvalidData`, 429 is `TooManyRequests`, and any other
code is `Unknown(code, body_text)`. -/
def Client.createPayment (c : Client) (tok : TokenEndpointResponse)
    (resp : PaymentHttpResponse) (request : CreatePaymentRequest) :
    Except Error CreatePaymentResponse × List Event :=
  let url := c.environment.apiUrl ++ "/payments"
  match c.sendPostRequest2 tok resp url request with
  | (.error e, evs) => (.error e, evs)
  | (.ok r, evs) =>
      (match r.status with
       | 201 =>
           match r.processedBody with
           | some body => .ok (.Processed body)
           | none => .error .Transport
       | 202 =>
           match r.pendingBody with
           | some body => .ok (.Pending body)
           | none => .error .Transport
       | 401 => .error .Unauthorized
       | 422 =>
           match r.errBody with
           | some apiErr => .error (.InvalidData apiErr)
           | none => .error .Transport
       | 429 => .error .TooManyRequests
       | code => .error (.Unknown code r.text),
       evs)

/-- `Client::get_payment_details` from `src/lib.rs`. -/
def Client.getPaymentDetails (c : Client) (tok : TokenEndpointResponse)
    (resp : JsonResponse GetPaymentDetailsResponse) (payment_id : String) :
    Except Error GetPaymentDetailsResponse × List Event :=
  let url := c.environment.apiUrl ++ "/payments/" ++ payment_id
  c.sendGetRequest tok resp url

/-- `Client::get_payment_actions` from `src/lib.rs`. -/
def Client.getPaymentActions (c : Client) (tok : TokenEndpointResponse)
    (resp : JsonResponse GetPaymentActionsResponse) (payment_id : String) :
    Except Error GetPaymentActionsResponse × List Event :=
  let url := c.environment.apiUrl ++ "/payments/" ++ payment_id ++ "/actions"
  c.sendGetRequest tok resp url

/-- `Client::capture_payment` from `src/lib.rs`. -/
def Client.capturePayment (c : Client) (tok : TokenEndpointResponse)
    (resp : JsonResponse CapturePaymentResponse) (payment_id : String)
    (body : CapturePaymentBody) :
    Except Error CapturePaymentResponse × List Event :=
  let url := c.environment.apiUrl ++ "/payments/" ++ payment_id ++ "/captures"
  c.sendPostRequest tok resp url body

/-- `Client::refund_payment` from `src/lib.rs`. -/
def Client.refundPayment (c : Client) (tok : TokenEndpointResponse)
    (resp : JsonResponse RefundPaymentResponse) (payment_id : String)
    (body : RefundPaymentBody) :
    Except Error RefundPaymentResponse × List Event :=
  let url := c.environment.apiUrl ++ "/payments/" ++ payment_id ++ "/refunds"
  c.sendPostRequest tok resp url body

/-- `Client::void_payment` from `src/lib.rs`. -/
def Client.voidPayment (c : Client) (tok : TokenEndpointResponse)
    (resp : JsonResponse VoidPaymentResponse) (payment_id : String)
    (body : VoidPaymentBody) :
    Except Error VoidPaymentResponse × List Event :=
  let url := c.environment.apiUrl ++ "/payments/" ++ payment_id ++ "/voids"
  c.sendPostRequest tok resp url body

/-- `Client::from_env` from `src/lib.rs`.  `std::env::var` is modelled by
the `lookup` argument (`none` = the variable is unset or not unicode); the
`.unwrap()` panics on the three reads are modelled by the outer `none`.
The environment string is parsed with `?` after all three unwraps. -/
def Client.fromEnv (lookup : String → Option String) :
    Option (Except ParseEnvironmentError Client) :=
  match lookup "CKO_USERNAME" with
  | none => none
  | some username =>
      match lookup "CKO_PASSWORD" with
      | none => none
      | some password =>
          match lookup "CKO_ENVIRONMENT" with
          | none => none
          | some envString =>
              some (match Environment.fromStr envString with
                    | .ok environment =>
                        .ok (Client.new username password environment)
                    | .error e => .error e)

/-- Classification lemma: any non-200 token-endpoint status is rejected as
`Unauthorized`. -/
theorem authorizeClassify_of_ne_200 {tok : TokenEndpointResponse}
    (h : tok.status ≠ 200) : authorizeClassify tok = .error .Unauthorized := by
  simp [authorizeClassify, h]

/-- C7.  `authorize` sends a form-encoded POST to
`{access_base_url}/connect/token` with HTTP Basic auth set to the client's
username and password and body fields `grant_type = "client_credentials"`
and `scope = "gateway"`; a 200 response yields the `access_token` field of
the JSON body, and any other status fails with `Unauthorized`. -/
theorem authorize_token_exchange (c : Client) (resp : TokenEndpointResponse)
    (b : OAuthTokenResponse) :
    (c.authorizeRequest.url = c.environment.accessUrl ++ "/connect/token"
      ∧ c.authorizeRequest.basicUsername = c.username
      ∧ c.authorizeRequest.basicPassword = c.password
      ∧ c.authorizeRequest.form.grant_type = "client_credentials"
      ∧ c.authorizeRequest.form.scope = "gateway")
  ∧ (resp.status = 200 → resp.body = some b →
      authorizeClassify resp = .ok b.access_token)
  ∧ (resp.status ≠ 200 → authorizeClassify resp = .error .Unauthorized) := by
  refine ⟨⟨rfl, rfl, rfl, rfl, rfl⟩, fun h hb => ?_, fun h => ?_⟩
  · simp [authorizeClassify, h, hb]
  · exact authorizeClassify_of_ne_200 h

/-- Witness for C7: a concrete client, a 200 reply carrying a token, and a
401 reply. -/
theorem authorize_token_exchange_witness :
    (Client.authorizeRequest ⟨.Sandbox, "user", "pass"⟩).url
        = "https://access.sandbox.checkout.com/connect/token"
      ∧ authorizeClassify ⟨200, some ⟨"tok", 3600⟩⟩ = .ok "tok"
      ∧ authorizeClassify ⟨401, none⟩ = .error .Unauthorized := by
  have h200 := authorize_token_exchange ⟨.Sandbox, "user", "pass"⟩
    ⟨200, some ⟨"tok", 3600⟩⟩ ⟨"tok", 3600⟩
  have h401 := authorize_token_exchange ⟨.Sandbox, "user", "pass"⟩
    ⟨401, none⟩ ⟨"tok", 3600⟩
  exact ⟨h200.1.1, h200.2.1 rfl rfl, h401.2.2 (by decide)⟩

/-- C10.  `Client::from_env` panics (modelled by the outer `none`) whenever
any of `CKO_USERNAME`, `CKO_PASSWORD` or `CKO_ENVIRONMENT` is unset, despite
its `Result` return type; its `ParseEnvironmentError` return is reachable
only when all three variables are set and `CKO_ENVIRONMENT` holds an
unrecognized environment string. -/
theorem fromEnv_panics_on_missing_vars (lookup : String → Option String) :
    ((lookup "CKO_USERNAME" = none ∨ lookup "CKO_PASSWORD" = none
        ∨ lookup "CKO_ENVIRONMENT" = none) → Client.fromEnv lookup = none)
  ∧ (∀ e : ParseEnvironmentError, Client.fromEnv lookup = some (.error e) →
      ∃ u p s, lookup "CKO_USERNAME" = some u ∧ lookup "CKO_PASSWORD" = some p
        ∧ lookup "CKO_ENVIRONMENT" = some s
        ∧ Environment.fromStr s = .error e) := by
  constructor
  · intro h
    cases hu : lookup "CKO_USERNAME" <;> cases hp : lookup "CKO_PASSWORD" <;>
      cases hs : lookup "CKO_ENVIRONMENT" <;>
        simp_all [Client.fromEnv]
  · intro e he
    cases hu : lookup "CKO_USERNAME" with
    | none => simp [Client.fromEnv, hu] at he
    | some u =>
    cases hp : lookup "CKO_PASSWORD" with
    | none => simp [Client.fromEnv, hu, hp] at he
    | some p =>
    cases hs : lookup "CKO_ENVIRONMENT" with
    | none => simp [Client.fromEnv, hu, hp, hs] at he
    | some s =>
    refine ⟨u, p, s, rfl, rfl, rfl, ?_⟩
    cases hf : Environment.fromStr s with
    | ok env => simp [Client.fromEnv, hu, hp, hs, hf] at he
    | error e2 =>
        simp only [Client.fromEnv, hu, hp, hs, hf, Option.some_inj] at he
        injection he with he2
        rw [he2]

/-- Witness for C10: all-unset lookups panic; an all-set lookup with a bad
environment string reaches the error return. -/
theorem fromEnv_panics_on_missing_vars_witness :
    Client.fromEnv (fun _ => none) = none
      ∧ ∃ u p s, (fun _ => some "staging" : String → Option String) "CKO_USERNAME" = some u
          ∧ (fun _ => some "staging" : String → Option String) "CKO_PASSWORD" = some p
          ∧ (fun _ => some "staging" : String → Option String) "CKO_ENVIRONMENT" = some s
          ∧ Environment.fromStr s = .error ⟨"staging"⟩ :=
  ⟨(fromEnv_panics_on_missing_vars (fun _ => none)).1 (Or.inl rfl),
   (fromEnv_panics_on_missing_vars (fun _ => some "staging")).2 ⟨"staging"⟩ rfl⟩

/-- C8.  If the token endpoint returns any non-200 status, every dependent
operation — `create_payment`, `get_payment_details`, `get_payment_actions`,
`capture_payment`, `refund_payment`, `void_payment` — fails with
`Unauthorized`, and its request trace is exactly the token request: no
request to the resource endpoint is ever attempted, since authorization
must complete successfully before the resource request is sent. -/
theorem auth_failure_blocks_resource_request (c : Client)
    (tok : TokenEndpointResponse) (h : tok.status ≠ 200) :
    (∀ (resp : PaymentHttpResponse) (request : CreatePaymentRequest),
        c.createPayment tok resp request = (.error .Unauthorized, [.tokenRequest]))
  ∧ (∀ (resp : JsonResponse GetPaymentDetailsResponse) (pid : String),
        c.getPaymentDetails tok resp pid = (.error .Unauthorized, [.tokenRequest]))
  ∧ (∀ (resp : JsonResponse GetPaymentActionsResponse) (pid : String),
        c.getPaymentActions tok resp pid = (.error .Unauthorized, [.tokenRequest]))
  ∧ (∀ (resp : JsonResponse CapturePaymentResponse) (pid : String)
        (body : CapturePaymentBody),
        c.capturePayment tok resp pid body = (.error .Unauthorized, [.tokenRequest]))
  ∧ (∀ (resp : JsonResponse RefundPaymentResponse) (pid : String)
        (body : RefundPaymentBody),
        c.refundPayment tok resp pid body = (.error .Unauthorized, [.tokenRequest]))
  ∧ (∀ (resp : JsonResponse VoidPaymentResponse) (pid : String)
        (body : VoidPaymentBody),
        c.voidPayment tok resp pid body = (.error .Unauthorized, [.tokenRequest]))
  ∧ (∀ url : String, Event.resourceRequest url ∉ ([.tokenRequest] : List Event)) := by
  have ha := authorizeClassify_of_ne_200 h
  refine ⟨fun resp request => ?_, fun resp pid => ?_, fun resp pid => ?_,
    fun resp pid body => ?_, fun resp pid body => ?_, fun resp pid body => ?_,
    fun url hmem => ?_⟩
  · simp [Client.createPayment, Client.sendPostRequest2, ha]
  · simp [Client.getPaymentDetails, Client.sendGetRequest, ha]
  · simp [Client.getPaymentActions, Client.sendGetRequest, ha]
  · simp [Client.capturePayment, Client.sendPostRequest, ha]
  · simp [Client.refundPayment, Client.sendPostRequest, ha]
  · simp [Client.voidPayment, Client.sendPostRequest, ha]
  · simp at hmem

/-- A sample request body with every optional field absent. -/
def sampleCreatePaymentRequest : CreatePaymentRequest :=
  ⟨none, none, none, "USD", .Regular, false, none, none, none, none, none,
   none, none, none, none, none, none, none, none, none, none, none⟩

/-- A sample raw payment response. -/
def samplePaymentHttpResponse : PaymentHttpResponse :=
  ⟨500, none, none, none, "server error"⟩

/-- A sample generic resource reply whose bodies decode at no type. -/
def sampleJsonResponse (R : Type) : JsonResponse R :=
  ⟨500, none, none⟩

/-- Witness for C8: each operation against a 401-ing token endpoint. -/
theorem auth_failure_blocks_resource_request_witness :
    Client.createPayment ⟨.Sandbox, "user", "pass"⟩ ⟨401, none⟩
        samplePaymentHttpResponse sampleCreatePaymentRequest
      = (.error .Unauthorized, [.tokenRequest])
  ∧ Client.getPaymentDetails ⟨.Sandbox, "user", "pass"⟩ ⟨401, none⟩
        (sampleJsonResponse _) "pay_1" = (.error .Unauthorized, [.tokenRequest])
  ∧ Client.getPaymentActions ⟨.Sandbox, "user", "pass"⟩ ⟨401, none⟩
        (sampleJsonResponse _) "pay_1" = (.error .Unauthorized, [.tokenRequest])
  ∧ Client.capturePayment ⟨.Sandbox, "user", "pass"⟩ ⟨401, none⟩
        (sampleJsonResponse _) "pay_1" ⟨none, none, none⟩
      = (.error .Unauthorized, [.tokenRequest])
  ∧ Client.refundPayment ⟨.Sandbox, "user", "pass"⟩ ⟨401, none⟩
        (sampleJsonResponse _) "pay_1" ⟨none, none, none⟩
      = (.error .Unauthorized, [.tokenRequest])
  ∧ Client.voidPayment ⟨.Sandbox, "user", "pass"⟩ ⟨401, none⟩
        (sampleJsonResponse _) "pay_1" ⟨none, none⟩
      = (.error .Unauthorized, [.tokenRequest]) := by
  have h := auth_failure_blocks_resource_request ⟨.Sandbox, "user", "pass"⟩
    ⟨401, none⟩ (by decide)
  exact ⟨h.1 _ _, h.2.1 _ _, h.2.2.1 _ _, h.2.2.2.1 _ _ _, h.2.2.2.2.1 _ _ _,
    h.2.2.2.2.2.1 _ _ _⟩

/-- C1.  Once authorization succeeded and a response was received from the
resource endpoint, the HTTP status of the response determines
`create_payment`'s result exactly: 201 yields `Ok(Processed)` with the
deserialized body, 202 yields `Ok(Pending)` with the deserialized body, 401
yields `Unauthorized`, 422 yields `InvalidData` carrying the deserialized
`ApiError` body, 429 yields `TooManyRequests`, and any other status yields
`Unknown` carrying that status code and the raw body text. -/
theorem createPayment_status_classification (c : Client)
    (tok : TokenEndpointResponse) (b : OAuthTokenResponse)
    (htok : tok.status = 200) (hb : tok.body = some b)
    (resp : PaymentHttpResponse) (request : CreatePaymentRequest) :
    (resp.status = 201 → ∀ body, resp.processedBody = some body →
        c.createPayment tok resp request = (.ok (.Processed body),
          [.tokenRequest, .resourceRequest (c.environment.apiUrl ++ "/payments")]))
  ∧ (resp.status = 202 → ∀ body, resp.pendingBody = some body →
        c.createPayment tok resp request = (.ok (.Pending body),
          [.tokenRequest, .resourceRequest (c.environment.apiUrl ++ "/payments")]))
  ∧ (resp.status = 401 →
        c.createPayment tok resp request = (.error .Unauthorized,
          [.tokenRequest, .resourceRequest (c.environment.apiUrl ++ "/payments")]))
  ∧ (resp.status = 422 → ∀ apiErr, resp.errBody = some apiErr →
        c.createPayment tok resp request = (.error (.InvalidData apiErr),
          [.tokenRequest, .resourceRequest (c.environment.apiUrl ++ "/payments")]))
  ∧ (resp.status = 429 →
        c.createPayment tok resp request = (.error .TooManyRequests,
          [.tokenRequest, .resourceRequest (c.environment.apiUrl ++ "/payments")]))
  ∧ (resp.status ∉ ([201, 202, 401, 422, 429] : List ℕ) →
        c.createPayment tok resp request = (.error (.Unknown resp.status resp.text),
          [.tokenRequest, .resourceRequest (c.environment.apiUrl ++ "/payments")])) := by
  have hauth : authorizeClassify tok = .ok b.access_token := by
    simp [authorizeClassify, htok, hb]
  have hrun : c.sendPostRequest2 tok resp (c.environment.apiUrl ++ "/payments")
      request = (.ok resp,
        [.tokenRequest, .resourceRequest (c.environment.apiUrl ++ "/payments")]) := by
    simp [Client.sendPostRequest2, hauth]
  refine ⟨?_, ?_, ?_, ?_, ?_, ?_⟩
  · intro h body hbody
    simp [Client.createPayment, hrun, h, hbody]
  · intro h body hbody
    simp [Client.createPayment, hrun, h, hbody]
  · intro h
    simp [Client.createPayment, hrun, h]
  · intro h apiErr herr
    simp [Client.createPayment, hrun, h, herr]
  · intro h
    simp [Client.createPayment, hrun, h]
  · intro h
    simp only [List.mem_cons, List.not_mem_nil, or_false, not_or] at h
    obtain ⟨h1, h2, h3, h4, h5⟩ := h
    simp only [Client.createPayment, hrun]

/-- Witness for C1: a 201 reply carrying a processed body, against a 200
token exchange. -/
theorem createPayment_status_classification_witness :
    Client.createPayment ⟨.Sandbox, "user", "pass"⟩ ⟨200, some ⟨"tok", 3600⟩⟩
        ⟨201, some ⟨"pay_1", "act_1", 2000, "USD", true, .Authorized, none,
          "10000", none, none, none, none, none, "now", none, none, none,
          none, none⟩, none, none, ""⟩ sampleCreatePaymentRequest
      = (.ok (.Processed ⟨"pay_1", "act_1", 2000, "USD", true, .Authorized,
          none, "10000", none, none, none, none, none, "now", none, none,
          none, none, none⟩),
        [.tokenRequest,
         .resourceRequest "https://api.sandbox.checkout.com/payments"]) :=
  (createPayment_status_classification ⟨.Sandbox, "user", "pass"⟩
      ⟨200, some ⟨"tok", 3600⟩⟩ ⟨"tok", 3600⟩ rfl rfl
      ⟨201, some ⟨"pay_1", "act_1", 2000, "USD", true, .Authorized, none,
        "10000", none, none, none, none, none, "now", none, none, none,
        none, none⟩, none, none, ""⟩ sampleCreatePaymentRequest).1 rfl _ rfl

/-- C2 counterexample.  A 401 response to `get_payment_details` (which goes
through the shared `send_get_request` pipeline) does not yield the
`Unauthorized` error: the pipeline wraps the deserialized body of every
non-2xx response uniformly in `Error::Api`. -/
theorem send_pipeline_unauthorized_counterexample :
    (Client.getPaymentDetails ⟨.Sandbox, "user", "pass"⟩
        ⟨200, some ⟨"tok", 3600⟩⟩
        ⟨401, none, some ⟨"req_1", "request_invalid", ["token_invalid"]⟩⟩
        "pay_1").1
      = .error (.Api ⟨"req_1", "request_invalid", ["token_invalid"]⟩)
  ∧ (Client.getPaymentDetails ⟨.Sandbox, "user", "pass"⟩
        ⟨200, some ⟨"tok", 3600⟩⟩
        ⟨401, none, some ⟨"req_1", "request_invalid", ["token_invalid"]⟩⟩
        "pay_1").1
      ≠ .error .Unauthorized := by
  refine ⟨rfl, ?_⟩
  intro h
  rw [show (Client.getPaymentDetails ⟨.Sandbox, "user", "pass"⟩
      ⟨200, some ⟨"tok", 3600⟩⟩
      ⟨401, none, some ⟨"req_1", "request_invalid", ["token_invalid"]⟩⟩
      "pay_1").1
    = .error (.Api ⟨"req_1", "request_invalid", ["token_invalid"]⟩) from rfl] at h
  injection h with h2
  exact Error.noConfusion h2

/-- C2 amended.  For every endpoint operation other than `create_payment`,
the shared pipeline (`send_get_request` / `send_post_request`) does not
classify non-2xx responses by status code: every non-2xx response — 401,
422 and 429 included — is mapped uniformly to `Error::Api` carrying the
deserialized error body.  (Only `create_payment`'s own dispatcher
distinguishes 401 / 422 / 429; a non-200 *token-endpoint* reply is what
produces `Unauthorized` on these paths.) -/
theorem send_pipeline_uniform_api_error {R : Type} (c : Client)
    (tok : TokenEndpointResponse) (b : OAuthTokenResponse)
    (htok : tok.status = 200) (hb : tok.body = some b)
    (resp : JsonResponse R) (url : String) (apiErr : ApiError)
    (hst : statusIsSuccess resp.status = false)
    (he : resp.errBody = some apiErr) :
    (c.sendGetRequest tok resp url).1 = .error (.Api apiErr)
  ∧ (∀ (B : Type) (body : B),
        (c.sendPostRequest tok resp url body).1 = .error (.Api apiErr)) := by
  have hauth : authorizeClassify tok = .ok b.access_token := by
    simp [authorizeClassify, htok, hb]
  constructor
  · simp [Client.sendGetRequest, hauth, hst, he]
  · intro B body
    simp [Client.sendPostRequest, hauth, hst, he]

/-- Witness for C2 amended, at a 401 response (get) and a 429 response
(post). -/
theorem send_pipeline_uniform_api_error_witness :
    (Client.sendGetRequest ⟨.Sandbox, "user", "pass"⟩ ⟨200, some ⟨"tok", 3600⟩⟩
        (⟨401, none, some ⟨"req_1", "request_invalid", ["token_invalid"]⟩⟩
          : JsonResponse PaymentDetails) "u").1
      = .error (.Api ⟨"req_1", "request_invalid", ["token_invalid"]⟩)
  ∧ (Client.sendPostRequest ⟨.Sandbox, "user", "pass"⟩ ⟨200, some ⟨"tok", 3600⟩⟩
        (⟨429, none, some ⟨"req_2", "too_many", []⟩⟩
          : JsonResponse VoidPaymentResponse) "u" (⟨none, none⟩ : VoidPaymentBody)).1
      = .error (.Api ⟨"req_2", "too_many", []⟩) :=
  ⟨(send_pipeline_uniform_api_error ⟨.Sandbox, "user", "pass"⟩
      ⟨200, some ⟨"tok", 3600⟩⟩ ⟨"tok", 3600⟩ rfl rfl
      ⟨401, none, some ⟨"req_1", "request_invalid", ["token_invalid"]⟩⟩ "u"
      ⟨"req_1", "request_invalid", ["token_invalid"]⟩ rfl rfl).1,
   (send_pipeline_uniform_api_error ⟨.Sandbox, "user", "pass"⟩
      ⟨200, some ⟨"tok", 3600⟩⟩ ⟨"tok", 3600⟩ rfl rfl
      ⟨429, none, some ⟨"req_2", "too_many", []⟩⟩ "u"
      ⟨"req_2", "too_many", []⟩ rfl rfl).2 VoidPaymentBody ⟨none, none⟩⟩

end Checkout
